import Mathlib

/-!
Shallow embedding of `Subtask.cpp` (wp5-mam-planner) from epfl-lasa/wp5-metal-additive:
the ROI ingestion/deduplication queue and the plane-alignment orientation solver.

Conventions of the embedding:
- `double` values are embedded as exact reals (`ℝ`); `std::string` as `String`;
  `std::deque<ROI>` as `List ROI` with the front of the deque at the head.
- IEEE-754 NaN production is tracked explicitly: Eigen's guarded
  `normalized()` (3.3 and later — this package targets ROS1 Noetic, which
  ships Eigen 3.3.7) never produces NaN, returning a copy of the input for a
  zero vector, so the only NaN source on the modelled paths is the `acos`
  stage of the solver: a 0/0 division feeding `acos` when `rotatedVectPlan`
  (or `refVector`) is the zero vector, or an `acos` argument outside
  `[-1, 1]`. Once that stage is NaN, every component of the returned
  quaternion is NaN (`cos(NaN)`, `axis * sin(NaN)`, `0 * NaN = NaN`), and
  such a run is modelled as the distinguished result `SolverResult.nan`.
- A C++ exception escaping a routine is modelled as a distinguished outcome
  (`IngestOutcome.thrown`), undefined behaviour (out-of-bounds `operator[]`)
  as `IngestOutcome.ub`.
-/

namespace Subtask

/-- 3D vector of doubles (`Eigen::Vector3d`), embedded over exact reals. -/
structure Vec3 where
  x : ℝ
  y : ℝ
  z : ℝ

/-- Componentwise subtraction (`operator-` of `Eigen::Vector3d`). -/
def vecSub (a b : Vec3) : Vec3 := ⟨a.x - b.x, a.y - b.y, a.z - b.z⟩

/-- Componentwise addition (`operator+` of `Eigen::Vector3d`). -/
def vecAdd (a b : Vec3) : Vec3 := ⟨a.x + b.x, a.y + b.y, a.z + b.z⟩

/-- Scalar multiplication of an `Eigen::Vector3d`. -/
def scalMul (c : ℝ) (v : Vec3) : Vec3 := ⟨c * v.x, c * v.y, c * v.z⟩

/-- Cross product (`Eigen::Vector3d::cross`). -/
def cross (a b : Vec3) : Vec3 :=
  ⟨a.y * b.z - a.z * b.y, a.z * b.x - a.x * b.z, a.x * b.y - a.y * b.x⟩

/-- Dot product (`Eigen::Vector3d::dot`). -/
def dot (a b : Vec3) : ℝ := a.x * b.x + a.y * b.y + a.z * b.z

/-- Squared Euclidean norm (`Eigen::Vector3d::squaredNorm`). -/
def normSq (v : Vec3) : ℝ := dot v v

/-- Euclidean norm (`Eigen::Vector3d::norm`). -/
noncomputable def norm (v : Vec3) : ℝ := Real.sqrt (normSq v)

/-- Quaternion of doubles (`Eigen::Quaterniond`), scalar-first. -/
structure Quat where
  w : ℝ
  x : ℝ
  y : ℝ
  z : ℝ

/-- Vector part of a quaternion (`Eigen::Quaterniond::vec`). -/
def quatVec (q : Quat) : Vec3 := ⟨q.x, q.y, q.z⟩

/-- Rotation of a vector by a quaternion, exactly as Eigen's
`Quaterniond::operator*(Vector3d)` computes it for a unit quaternion:
`uv = 2 (u × v); result = v + w * uv + u × uv` with `u` the vector part. -/
def quatRotate (q : Quat) (v : Vec3) : Vec3 :=
  let uv := scalMul 2 (cross (quatVec q) v)
  vecAdd (vecAdd v (scalMul q.w uv)) (cross (quatVec q) uv)

/-- Result of a run of the solver. `nan` stands for a returned
`Eigen::Quaterniond` all of whose components are NaN (the C++ routine has no
explicit failure path; on such runs it silently returns that quaternion). -/
inductive SolverResult where
  | nan : SolverResult
  | quat : Quat → SolverResult

/-- Eigen's `MatrixBase::normalized()` as of Eigen 3.3 (ROS1 Noetic, the
target of this package, ships Eigen 3.3.7): if the squared norm is positive
the vector is divided by its norm, otherwise — here exactly the zero
vector — a copy of the input is returned, so no NaN is ever produced. -/
noncomputable def normalizedE (v : Vec3) : Vec3 :=
  if normSq v = 0 then v else scalMul (norm v)⁻¹ v

/-- Embedding of `Subtask::rotateVectorInPlan_` (Subtask.cpp, lines 94-118).
The C++ takes the three points as a `std::array<Eigen::Vector3d, 3>`; they
are passed here as three arguments in the same order. `theta` defaults to 0
at the call site. Both `normalized()` calls are Eigen's guarded ones
(`normalizedE`), which turn a zero cross product into the zero vector and
let execution continue. The only NaN sources of the routine are therefore at
the `acos` stage: when `rotatedVectPlan` (or `refVector`) is the zero vector
the `acos` argument is the division 0/0 — the numerator `dot` is then also
zero — which is NaN, and every component of the returned quaternion is then
NaN (`cos(NaN/2)`, `axis * sin(NaN/2)` with `0 * NaN = NaN`); likewise
`acos` of an argument outside `[-1, 1]` is NaN (reachable in the
floating-point code only by rounding overshoot — no clamping is performed —
and unreachable over exact reals by Cauchy-Schwarz). Those all-NaN runs are
the result `SolverResult.nan`. -/
noncomputable def rotateVectorInPlan_ (p0 p1 p2 : Vec3) (refVector : Vec3)
    (theta : ℝ) : SolverResult :=
  let planVector1 := vecSub p0 p1
  let planVector2 := vecSub p0 p2
  let normalVector := normalizedE (cross planVector1 planVector2)
  let quatRotation : Quat :=
    ⟨Real.cos (theta / 2),
     normalVector.x * Real.sin (theta / 2),
     normalVector.y * Real.sin (theta / 2),
     normalVector.z * Real.sin (theta / 2)⟩
  let rotatedVectPlan := quatRotate quatRotation planVector1
  let axisFinalRot := normalizedE (cross refVector rotatedVectPlan)
  if norm refVector * norm rotatedVectPlan = 0 then SolverResult.nan
  else
    let acosArg := dot refVector rotatedVectPlan /
      (norm refVector * norm rotatedVectPlan)
    if 1 < |acosArg| then SolverResult.nan
    else
      let angleFinalRot := Real.arccos acosArg
      SolverResult.quat
        ⟨Real.cos (angleFinalRot / 2),
         axisFinalRot.x * Real.sin (angleFinalRot / 2),
         axisFinalRot.y * Real.sin (angleFinalRot / 2),
         axisFinalRot.z * Real.sin (angleFinalRot / 2)⟩

/-- Splitting of a character list at every occurrence of the delimiter `,`;
the result always has one more entry than there are delimiters. -/
def splitChars : List Char → List (List Char)
  | [] => [[]]
  | c :: cs =>
    let r := splitChars cs
    if c = ',' then [] :: r
    else (c :: r.headD []) :: r.tail

/-- Splitting of the raw message string by `std::getline(ss, token, ',')`
(Subtask.cpp, lines 84-91): tokens are the maximal runs between delimiters,
but a final empty token — produced by a trailing delimiter or by an empty
string — is not emitted, because the last `getline` call extracts nothing
and fails. -/
def tokens (str : String) : List String :=
  let ts := (splitChars str.toList).map (fun cs => String.mk cs)
  if ts.getLast? = some ("") then ts.dropLast else ts

/-- Numeric value of a digit run, most significant first. -/
def digitsVal (cs : List Char) : ℕ :=
  cs.foldl (fun n c => 10 * n + (c.toNat - 48)) 0

/-- Model of `std::stod` on its decimal forms: skip leading whitespace, an
optional sign, digits with an optional fractional part (at least one digit
overall), an optional exponent part `e`/`E` with optional sign and digits
(consumed only when at least one exponent digit follows), and any trailing
characters ignored. `none` models `std::invalid_argument` being thrown when
no conversion can be performed. The hexadecimal and inf/nan forms of `stod`
are not modelled; no descriptor considered here uses them. Values are exact
rationals (every finite decimal literal is one). -/
def stod (str : String) : Option ℚ :=
  let cs := str.toList.dropWhile (fun c => c.isWhitespace)
  let neg := cs.headD (' ') = '-'
  let cs := if cs.headD (' ') = '-' ∨ cs.headD (' ') = '+' then cs.tail else cs
  let intPart := cs.takeWhile Char.isDigit
  let cs := cs.dropWhile Char.isDigit
  let fracPart := if cs.headD (' ') = '.' then cs.tail.takeWhile Char.isDigit else []
  let rest := if cs.headD (' ') = '.' then cs.tail.dropWhile Char.isDigit else cs
  if intPart.isEmpty ∧ fracPart.isEmpty then none
  else
    let sgn : ℚ := if neg then -1 else 1
    let mant : ℚ :=
      sgn * ((digitsVal intPart : ℚ) + (digitsVal fracPart : ℚ) / 10 ^ fracPart.length)
    let expCs := if rest.headD (' ') = 'e' ∨ rest.headD (' ') = 'E' then rest.tail else []
    let expNeg := expCs.headD (' ') = '-'
    let expDigits :=
      (if expCs.headD (' ') = '-' ∨ expCs.headD (' ') = '+' then expCs.tail
       else expCs).takeWhile Char.isDigit
    if expDigits.isEmpty then some mant
    else if expNeg then some (mant / 10 ^ digitsVal expDigits)
    else some (mant * 10 ^ digitsVal expDigits)

/-- Left-to-right `std::stod` of each numeric token, as the loop of
`Subtask::splitString_` performs it; `none` models the `std::invalid_argument`
thrown at the first non-numeric token (later tokens are then never parsed,
and the exception propagates to the caller uncaught). -/
def parseDoubles : List String → Option (List ℚ)
  | [] => some []
  | t :: ts =>
    match stod t with
    | none => none
    | some q =>
      match parseDoubles ts with
      | none => none
      | some qs => some (q :: qs)

/-- Embedding of `Subtask::splitString_` (Subtask.cpp, lines 79-92): the
first token becomes `waypointID` (it stays `""` when there is no token),
every later token goes through `std::stod`. `none` models the uncaught
`std::invalid_argument` escaping the routine. -/
def splitString_ (str : String) : Option (String × List ℚ) :=
  match parseDoubles (tokens str).tail with
  | none => none
  | some ws => some ((tokens str).headD (""), ws)

/-- ROI record. The struct itself is declared in Subtask.h, which is not
among the provided sources; its four fields and their types are taken from
their uses in Subtask.cpp (lines 29, 52-55). `quat` holds what the solver
returned, `SolverResult.nan` standing for a quaternion with NaN components. -/
structure ROI where
  id : String
  posStart : Vec3
  posEnd : Vec3
  quat : SolverResult

/-- Modelled from the spec: the default-constructed `ROI()` returned on
consuming an empty queue. Subtask.h (not among the provided sources) declares
the struct and its defaults; the spec calls the sentinel "a well-defined
empty sentinel record (an all-default ROI)" with "all-zero fields", so the
model uses the empty id, zero vectors and the all-zero quaternion. -/
def ROIdefault : ROI :=
  ⟨"", ⟨0, 0, 0⟩, ⟨0, 0, 0⟩, SolverResult.quat ⟨0, 0, 0, 0⟩⟩

/-- State of a `Subtask` object as Subtask.cpp uses it: the pending deque
(front at the head) and the two read-only reference vectors `robotPos_` and
`refVector_` supplied externally. -/
structure SubtaskState where
  dequeROI : List ROI
  robotPos : Vec3
  refVector : Vec3

/-- Embedding of `Subtask::clearROI` (line 23): `dequeROI_.clear()`. -/
def clearROI (s : SubtaskState) : SubtaskState := { s with dequeROI := [] }

/-- Embedding of `Subtask::empty` (line 25): `dequeROI_.empty()`. -/
def empty (s : SubtaskState) : Bool := s.dequeROI.isEmpty

/-- Embedding of `Subtask::getROI` (lines 27-35): pop the front of the deque
and return it, or return a default-constructed `ROI()` leaving the state
unchanged when the deque is empty. The mutation of `this` is made explicit
by returning the record together with the successor state. -/
def getROI (s : SubtaskState) : ROI × SubtaskState :=
  match s.dequeROI with
  | roi :: rest => (roi, { s with dequeROI := rest })
  | [] => (ROIdefault, s)

/-- Embedding of `Subtask::isIdStored_` (lines 70-77): linear scan of the
pending deque for a record with the given id. -/
def isIdStored_ (s : SubtaskState) (id : String) : Bool :=
  s.dequeROI.any (fun roi => roi.id == id)

/-- First comma-separated field of a descriptor, i.e. the `waypointID` that
`splitString_` extracts (it stays `""` when the string has no token). -/
def descriptorId (str : String) : String := (tokens str).headD ("")

/-- Whether the run of `parseROI_` on this string reaches the
`ROS_ERROR_STREAM` size report (lines 44-47): the parse must not have thrown,
and the count of numeric fields must differ from `MSG_SIZE = 7`. Note the
count compared is that of the numeric fields, of which a well-formed 7-field
descriptor has only 6. -/
def reportsSizeError (str : String) : Bool :=
  match splitString_ str with
  | none => false
  | some (_, ws) => decide (ws.length ≠ 7)

/-- The ROI record that `parseROI_` builds and enqueues (lines 51-56): the
first three numeric fields become `posStart`, the next three `posEnd`, and
the quaternion comes from `rotateVectorInPlan_({posStart, posEnd, robotPos_},
refVector_)` with `theta` left at its default 0. `List.getD` stands for
`std::vector::operator[]`; it is only consulted at indices 0-5, and
`parseROI_` takes the separate `ub` outcome before reaching this record when
any of those indices is out of range. -/
noncomputable def mkROI (s : SubtaskState) (str : String) : ROI :=
  let ws := (parseDoubles (tokens str).tail).getD []
  let posStart : Vec3 :=
    ⟨((ws.getD 0 0 : ℚ) : ℝ), ((ws.getD 1 0 : ℚ) : ℝ), ((ws.getD 2 0 : ℚ) : ℝ)⟩
  let posEnd : Vec3 :=
    ⟨((ws.getD 3 0 : ℚ) : ℝ), ((ws.getD 4 0 : ℚ) : ℝ), ((ws.getD 5 0 : ℚ) : ℝ)⟩
  { id := descriptorId str,
    posStart := posStart,
    posEnd := posEnd,
    quat := rotateVectorInPlan_ posStart posEnd s.robotPos s.refVector 0 }

/-- Outcome of one run of `Subtask::parseROI_` on a message: `ok` is a normal
return carrying the new state; `thrown` is the uncaught `std::invalid_argument`
from `std::stod` escaping the routine (the deque is untouched, since the
exception fires inside `splitString_`, before any enqueue); `ub` is the
undefined behaviour of reading `waypointsPos[i]` out of bounds. -/
inductive IngestOutcome where
  | ok : SubtaskState → IngestOutcome
  | thrown : SubtaskState → IngestOutcome
  | ub : IngestOutcome

/-- Pending records of an outcome (those of the carried state; none are
attributed to an undefined-behaviour run). -/
def IngestOutcome.queue : IngestOutcome → List ROI
  | .ok s => s.dequeROI
  | .thrown s => s.dequeROI
  | .ub => []

/-- Embedding of `Subtask::parseROI_` (Subtask.cpp, lines 37-68), the body of
the message callback. Control flow of the source: `splitString_` first (a
`stod` exception escapes right here); then the size check, which only logs —
execution continues regardless of its outcome; then the dedup check; then,
for a new id, the reads `waypointsPos[0]`..`waypointsPos[5]` (undefined
behaviour when fewer than 6 numeric fields were parsed) and the `push_back`
of the new record at the back of the deque. -/
noncomputable def parseROI_ (s : SubtaskState) (str : String) : IngestOutcome :=
  match splitString_ str with
  | none => IngestOutcome.thrown s
  | some (waypointID, ws) =>
    if isIdStored_ s waypointID then IngestOutcome.ok s
    else if ws.length < 6 then IngestOutcome.ub
    else IngestOutcome.ok { s with dequeROI := s.dequeROI ++ [mkROI s str] }

/-- A descriptor of the shape the spec calls valid: exactly 7 comma-separated
fields, of which the 6 after the identifier all parse as doubles. -/
abbrev validDescriptor (str : String) : Prop :=
  (tokens str).length = 7 ∧ (parseDoubles (tokens str).tail).isSome = true

/-- Sequential ingestion of a list of messages, `none` as soon as one run
does not return normally. -/
noncomputable def ingestList : SubtaskState → List String → Option SubtaskState
  | s, [] => some s
  | s, d :: ds =>
    match parseROI_ s d with
    | IngestOutcome.ok s₁ => ingestList s₁ ds
    | _ => none

/-- Trace of `n` successive `getROI` calls: the records returned, in call
order, together with the final state. -/
def consumeTrace : ℕ → SubtaskState → List ROI × SubtaskState
  | 0, s => ([], s)
  | n + 1, s =>
    let p := getROI s
    let rest := consumeTrace n p.2
    (p.1 :: rest.1, rest.2)

/-- Concrete state used by the closed evaluation theorems: empty pending
deque, robot base at the origin, upward reference vector. -/
def s0 : SubtaskState := ⟨[], ⟨0, 0, 0⟩, ⟨0, 0, 1⟩⟩

end Subtask

namespace Subtask

/-- Helper: the solver on a point pair with `posStart = posEnd`: the first
edge vector is zero, so `rotatedVectPlan` is the zero vector, the `acos`
argument is the 0/0 division, and the run returns the all-NaN quaternion —
whatever the third point, the reference vector and theta. -/
theorem rotateVectorInPlan_nan_of_eq (p p2 refV : Vec3) (theta : ℝ) :
    rotateVectorInPlan_ p p p2 refV theta = SolverResult.nan := by
  have hv : vecSub p p = ⟨0, 0, 0⟩ := by simp [vecSub]
  have hq : ∀ q : Quat, quatRotate q ⟨0, 0, 0⟩ = ⟨0, 0, 0⟩ := by
    intro q
    simp [quatRotate, quatVec, cross, scalMul, vecAdd]
  have h0 : norm (⟨0, 0, 0⟩ : Vec3) = 0 := by simp [norm, normSq, dot]
  simp only [rotateVectorInPlan_, hv, hq, h0, mul_zero]
  simp

/-- Helper: with `theta = 0` the in-plane rotation quaternion has scalar part
`cos 0 = 1` and zero vector part (each component is multiplied by `sin 0`),
so it transforms the first edge vector `P0 - P1 = (-1,0,0)` of the concrete
triangle `(0,0,0), (1,0,0), (0,1,0)` to itself, whatever the normal. -/
theorem quatRotate_theta_zero_concrete (a b c : ℝ) :
    quatRotate
      ⟨Real.cos ((0 : ℝ) / 2), a * Real.sin ((0 : ℝ) / 2),
       b * Real.sin ((0 : ℝ) / 2), c * Real.sin ((0 : ℝ) / 2)⟩
      (vecSub ⟨0, 0, 0⟩ ⟨1, 0, 0⟩) = ⟨-1, 0, 0⟩ := by
  norm_num [quatRotate, quatVec, vecSub, cross, scalMul, vecAdd]

/-- C7: on the spec's synthetic non-degenerate input `P0=(0,0,0)`,
`P1=(1,0,0)`, `P2=(0,1,0)`, `refVector=(0,0,1)`, `theta=0`, the solver
returns a quaternion whose rotation maps the reference vector exactly onto
the (un-)rotated edge vector `v1 = P0 - P1 = (-1,0,0)`; exact equality over
the reals implies the claim's up-to-sign-and-tolerance parallelism. -/
theorem C7_alignment_concrete : ∃ q : Quat,
    rotateVectorInPlan_ ⟨0, 0, 0⟩ ⟨1, 0, 0⟩ ⟨0, 1, 0⟩ ⟨0, 0, 1⟩ 0 =
      SolverResult.quat q ∧
    quatRotate q ⟨0, 0, 1⟩ = ⟨-1, 0, 0⟩ := by
  have h2 : Real.sqrt 2 * Real.sqrt 2 = 2 := Real.mul_self_sqrt (by norm_num)
  have hangle : Real.pi / 2 / 2 = Real.pi / 4 := by ring
  refine ⟨⟨Real.cos (Real.pi / 4), 0, -Real.sin (Real.pi / 4), 0⟩, ?_, ?_⟩
  · simp only [rotateVectorInPlan_, quatRotate_theta_zero_concrete]
    have hc : cross ⟨0, 0, 1⟩ ⟨-1, 0, 0⟩ = ⟨0, -1, 0⟩ := by norm_num [cross]
    have hne : normalizedE (⟨0, -1, 0⟩ : Vec3) = ⟨0, -1, 0⟩ := by
      simp only [normalizedE]
      rw [if_neg (by norm_num [normSq, dot])]
      norm_num [norm, normSq, dot, scalMul, Real.sqrt_one]
    have hn1 : norm (⟨0, 0, 1⟩ : Vec3) = 1 := by
      norm_num [norm, normSq, dot, Real.sqrt_one]
    have hn2 : norm (⟨-1, 0, 0⟩ : Vec3) = 1 := by
      norm_num [norm, normSq, dot, Real.sqrt_one]
    have hd : dot ⟨0, 0, 1⟩ ⟨-1, 0, 0⟩ = 0 := by norm_num [dot]
    rw [hc, hne, hn1, hn2, hd]
    rw [if_neg (by norm_num)]
    rw [if_neg (by norm_num)]
    norm_num [Real.arccos_zero, hangle]
  · simp [quatRotate, quatVec, scalMul, vecAdd, cross, Real.cos_pi_div_four,
      Real.sin_pi_div_four]
    constructor
    · nlinarith [h2]
    · nlinarith [h2]

/-- C1: the claim asserts the solver either returns a normalized quaternion
or fails explicitly on degenerate geometry, never a NaN-bearing or
unnormalized one. The source routine has no failure path and no guards at
the `acos` stage (with Eigen >= 3.3 the `normalized()` calls themselves are
NaN-free, and collinear-but-distinct points in fact yield a normalized
quaternion): (i) whenever the start and end points coincide — a zero-length
edge vector, one of the claim's listed degeneracy conditions — the `acos`
argument is the 0/0 division and an all-NaN quaternion is returned, for
every third point, reference vector and theta; (ii) when the reference
vector is anti-parallel to the rotated edge vector — another listed
condition — the final rotation axis is the zero vector, the final angle is
pi, and the returned quaternion is the all-zero, unnormalized one (its
floating-point counterpart has norm about 6e-17 instead of 1). -/
theorem C1_no_explicit_failure_on_degenerate_inputs :
    (∀ (p p2 refV : Vec3) (theta : ℝ),
      rotateVectorInPlan_ p p p2 refV theta = SolverResult.nan) ∧
    rotateVectorInPlan_ ⟨0, 0, 0⟩ ⟨1, 0, 0⟩ ⟨0, 1, 0⟩ ⟨1, 0, 0⟩ 0 =
      SolverResult.quat ⟨0, 0, 0, 0⟩ := by
  constructor
  · exact fun p p2 refV theta => rotateVectorInPlan_nan_of_eq p p2 refV theta
  · simp only [rotateVectorInPlan_, quatRotate_theta_zero_concrete]
    have hc : cross ⟨1, 0, 0⟩ ⟨-1, 0, 0⟩ = ⟨0, 0, 0⟩ := by norm_num [cross]
    have hne : normalizedE (⟨0, 0, 0⟩ : Vec3) = ⟨0, 0, 0⟩ := by
      simp [normalizedE, normSq, dot]
    have hn1 : norm (⟨1, 0, 0⟩ : Vec3) = 1 := by
      norm_num [norm, normSq, dot, Real.sqrt_one]
    have hn2 : norm (⟨-1, 0, 0⟩ : Vec3) = 1 := by
      norm_num [norm, normSq, dot, Real.sqrt_one]
    have hd : dot ⟨1, 0, 0⟩ ⟨-1, 0, 0⟩ = -1 := by norm_num [dot]
    rw [hc, hne, hn1, hn2, hd]
    rw [if_neg (by norm_num)]
    rw [if_neg (by norm_num)]
    norm_num [Real.arccos_neg_one, Real.cos_pi_div_two]

/-- Helper: a successful `parseDoubles` yields one value per token. -/
theorem parseDoubles_length {ts : List String} {ws : List ℚ}
    (h : parseDoubles ts = some ws) : ws.length = ts.length := by
  induction ts generalizing ws with
  | nil =>
    simp [parseDoubles] at h
    simp [← h]
  | cons t ts ih =>
    unfold parseDoubles at h
    cases hs : stod t with
    | none => rw [hs] at h; simp at h
    | some q =>
      rw [hs] at h
      cases hp : parseDoubles ts with
      | none => rw [hp] at h; simp at h
      | some qs =>
        rw [hp] at h
        simp at h
        simp [← h, ih hp]

/-- Helper: the id of a built record is the descriptor's first field. -/
theorem mkROI_id (s : SubtaskState) (str : String) :
    (mkROI s str).id = descriptorId str := rfl

/-- Helper: `mkROI` reads the state only through `robotPos_` and
`refVector_`. -/
theorem mkROI_congr (s₁ s₂ : SubtaskState) (str : String)
    (h1 : s₁.robotPos = s₂.robotPos) (h2 : s₁.refVector = s₂.refVector) :
    mkROI s₁ str = mkROI s₂ str := by
  unfold mkROI
  rw [h1, h2]

/-- Helper: on a valid descriptor whose id is not yet stored, `parseROI_`
returns normally and appends exactly one new record at the back. -/
theorem parseROI_append {s : SubtaskState} {str : String}
    (hv : validDescriptor str)
    (hf : isIdStored_ s (descriptorId str) = false) :
    parseROI_ s str =
      IngestOutcome.ok { s with dequeROI := s.dequeROI ++ [mkROI s str] } := by
  obtain ⟨hlen, hsome⟩ := hv
  obtain ⟨ws, hws⟩ := Option.isSome_iff_exists.mp hsome
  have hsplit : splitString_ str = some (descriptorId str, ws) := by
    simp [splitString_, descriptorId, hws]
  have hwl : ws.length = 6 := by
    rw [parseDoubles_length hws, List.length_tail, hlen]
  unfold parseROI_
  rw [hsplit]
  simp [hf, hwl]

/-- Helper: on a descriptor whose numeric fields parse and whose id is
already stored, `parseROI_` returns normally and changes nothing. -/
theorem parseROI_stored {s : SubtaskState} {str : String} {ws : List ℚ}
    (hws : parseDoubles (tokens str).tail = some ws)
    (hf : isIdStored_ s (descriptorId str) = true) :
    parseROI_ s str = IngestOutcome.ok s := by
  have hsplit : splitString_ str = some (descriptorId str, ws) := by
    simp [splitString_, descriptorId, hws]
  unfold parseROI_
  rw [hsplit]
  simp [hf]

/-- Helper: rewriting an already-empty deque to `[]` is the identity. -/
theorem dequeROI_nil_eta {s : SubtaskState} (h : s.dequeROI = []) :
    { s with dequeROI := [] } = s := by
  cases s
  simp_all

/-- Helper: as many `getROI` calls as there are pending records return
exactly those records, front first, and leave the queue empty. -/
theorem consumeTrace_drain (l : List ROI) : ∀ (s : SubtaskState),
    s.dequeROI = l → consumeTrace l.length s = (l, { s with dequeROI := [] }) := by
  induction l with
  | nil =>
    intro s h
    simp [consumeTrace, dequeROI_nil_eta h]
  | cons r rest ih =>
    intro s h
    simp only [List.length_cons, consumeTrace, getROI, h]
    rw [ih { s with dequeROI := rest } rfl]

/-- Helper: ingesting valid descriptors with pairwise-distinct, fresh ids
appends their records at the back, in order, and leaves the reference state
untouched. -/
theorem ingestList_appends (ds : List String) : ∀ (s : SubtaskState),
    (∀ d ∈ ds, validDescriptor d) →
    (ds.map descriptorId).Nodup →
    (∀ d ∈ ds, isIdStored_ s (descriptorId d) = false) →
    ∃ s', ingestList s ds = some s' ∧
      s'.dequeROI = s.dequeROI ++ ds.map (mkROI s) ∧
      s'.robotPos = s.robotPos ∧ s'.refVector = s.refVector := by
  induction ds with
  | nil =>
    intro s _ _ _
    exact ⟨s, rfl, by simp, rfl, rfl⟩
  | cons d ds ih =>
    intro s hv hnd hfresh
    have h1 := parseROI_append (hv d (List.mem_cons_self d ds))
      (hfresh d (List.mem_cons_self d ds))
    rw [List.map_cons] at hnd
    have hnd' := List.nodup_cons.mp hnd
    have hfresh₁ : ∀ d' ∈ ds,
        isIdStored_ { s with dequeROI := s.dequeROI ++ [mkROI s d] }
          (descriptorId d') = false := by
      intro d' hd'
      have hne : descriptorId d ≠ descriptorId d' := by
        intro he
        exact hnd'.1 (he ▸ List.mem_map_of_mem descriptorId hd')
      have := hfresh d' (List.mem_cons_of_mem d hd')
      simp_all [isIdStored_, mkROI_id]
    obtain ⟨s', hs', hdq, hrp, hrv⟩ :=
      ih { s with dequeROI := s.dequeROI ++ [mkROI s d] }
        (fun d' hd' => hv d' (List.mem_cons_of_mem d hd')) hnd'.2 hfresh₁
    refine ⟨s', ?_, ?_, hrp, hrv⟩
    · unfold ingestList
      rw [h1]
      exact hs'
    · rw [hdq]
      simp only [List.map_cons, List.append_assoc, List.singleton_append]
      congr 1

/-- C2: the claim says a descriptor with a numeric-field count other than 6
(total field count other than 7) is reported and discarded with no new
record, and that a well-formed 7-field descriptor yields one new record.
In the source the arity check compares the numeric-field count against
`MSG_SIZE = 7` — the total field count — and does not return on failure.
Hence an 8-field descriptor (7 numeric fields) passes the check silently
and is appended, and a well-formed 7-field descriptor (6 numeric fields)
is reported as a size error yet appended all the same. -/
theorem C2_arity_check_not_enforced :
    reportsSizeError ("id7,1,2,3,4,5,6,7") = false ∧
    ((parseROI_ s0 ("id7,1,2,3,4,5,6,7")).queue.map ROI.id) = ["id7"] ∧
    reportsSizeError ("id6,1,2,3,4,5,6") = true ∧
    ((parseROI_ s0 ("id6,1,2,3,4,5,6")).queue.map ROI.id) = ["id6"] :=
  ⟨by decide, by rfl, by decide, by rfl⟩

/-- C3: the claim says a non-numeric coordinate field is reported locally,
the message discarded, and no exception escapes ingestion. In the source
`std::stod` on such a field throws `std::invalid_argument`, nothing catches
it, and the exception escapes `parseROI_` (here the `thrown` outcome); the
deque is untouched but processing does not continue normally. -/
theorem C3_nonnumeric_field_exception_escapes :
    parseROI_ s0 ("id,foo,2,3,4,5,6") = IngestOutcome.thrown s0 ∧
    stod ("foo") = none :=
  ⟨by rfl, by rfl⟩

/-- C4: ingestion is idempotent on the identifier — after a valid descriptor
is ingested into an empty queue, ingesting a second valid descriptor with the
same id (whatever its coordinates) returns normally with the state unchanged:
exactly one stored record remains, the one built from the first descriptor. -/
theorem C4_dedup_idempotent (s : SubtaskState) (d₁ d₂ : String)
    (hv₁ : validDescriptor d₁) (hv₂ : validDescriptor d₂)
    (hid : descriptorId d₂ = descriptorId d₁) (h0 : s.dequeROI = []) :
    ∃ s₁, parseROI_ s d₁ = IngestOutcome.ok s₁ ∧
      s₁.dequeROI = [mkROI s d₁] ∧
      parseROI_ s₁ d₂ = IngestOutcome.ok s₁ := by
  have hf : isIdStored_ s (descriptorId d₁) = false := by simp [isIdStored_, h0]
  refine ⟨_, parseROI_append hv₁ hf, by simp [h0], ?_⟩
  obtain ⟨ws₂, hws₂⟩ := Option.isSome_iff_exists.mp hv₂.2
  exact parseROI_stored hws₂ (by simp [isIdStored_, h0, mkROI_id, hid])

/-- Witness for C4 at concrete descriptors sharing the id `a`. -/
theorem C4_witness :
    ∃ s₁, parseROI_ s0 ("a,1,2,3,4,5,6") = IngestOutcome.ok s₁ ∧
      s₁.dequeROI = [mkROI s0 ("a,1,2,3,4,5,6")] ∧
      parseROI_ s₁ ("a,9,8,7,6,5,4") = IngestOutcome.ok s₁ :=
  C4_dedup_idempotent s0 ("a,1,2,3,4,5,6") ("a,9,8,7,6,5,4") (by decide)
    (by decide) (by decide) (by rfl)

/-- C5: strict FIFO — starting from an empty queue, ingesting any sequence of
valid descriptors with pairwise-distinct ids and then consuming as many times
returns exactly the created records in ingestion order (their ids are the
descriptors' ids in order), and the queue ends empty. -/
theorem C5_fifo_order (s : SubtaskState) (ds : List String)
    (hv : ∀ d ∈ ds, validDescriptor d)
    (hnd : (ds.map descriptorId).Nodup)
    (h0 : s.dequeROI = []) :
    ∃ s', ingestList s ds = some s' ∧
      (consumeTrace ds.length s').1 = ds.map (mkROI s) ∧
      ((consumeTrace ds.length s').1).map ROI.id = ds.map descriptorId ∧
      empty (consumeTrace ds.length s').2 = true := by
  obtain ⟨s', hs', hdq, _, _⟩ := ingestList_appends ds s hv hnd
    (fun d hd => by simp [isIdStored_, h0])
  rw [h0, List.nil_append] at hdq
  have hlen : (ds.map (mkROI s)).length = ds.length := List.length_map _ _
  have hdrain := consumeTrace_drain (ds.map (mkROI s)) s' hdq
  refine ⟨s', hs', ?_, ?_, ?_⟩
  · rw [← hlen, hdrain]
  · rw [← hlen, hdrain]
    simp [List.map_map]
    intro d _
    exact mkROI_id s d
  · rw [← hlen, hdrain]
    simp [empty]

set_option maxRecDepth 8000 in
/-- Witness for C5 at three concrete descriptors with ids `w1`, `w2`, `w3`. -/
theorem C5_witness :
    (∃ s', ingestList s0
        (["w1,0,0,0,1,1,1", "w2,0,0,0,2,2,2", "w3,0,0,0,3,3,3"]) = some s' ∧
      (consumeTrace (["w1,0,0,0,1,1,1", "w2,0,0,0,2,2,2", "w3,0,0,0,3,3,3"] :
          List String).length s').1 =
        (["w1,0,0,0,1,1,1", "w2,0,0,0,2,2,2", "w3,0,0,0,3,3,3"]).map (mkROI s0) ∧
      ((consumeTrace (["w1,0,0,0,1,1,1", "w2,0,0,0,2,2,2", "w3,0,0,0,3,3,3"] :
          List String).length s').1).map ROI.id =
        (["w1,0,0,0,1,1,1", "w2,0,0,0,2,2,2", "w3,0,0,0,3,3,3"]).map descriptorId ∧
      empty (consumeTrace (["w1,0,0,0,1,1,1", "w2,0,0,0,2,2,2",
          "w3,0,0,0,3,3,3"] : List String).length s').2 = true) ∧
    (["w1,0,0,0,1,1,1", "w2,0,0,0,2,2,2", "w3,0,0,0,3,3,3"]).map descriptorId =
      ["w1", "w2", "w3"] :=
  ⟨C5_fifo_order s0 (["w1,0,0,0,1,1,1", "w2,0,0,0,2,2,2", "w3,0,0,0,3,3,3"])
    (by decide) (by decide) (by rfl), by decide⟩

/-- C6: the claim says no record with an unnormalized or invalid quaternion
is ever enqueued. The source performs no such check: a descriptor whose start
and end points coincide makes the solver's first cross product zero, the
solver returns a NaN-bearing quaternion, and `parseROI_` enqueues the record
regardless — here evaluated on `deg,0,0,0,0,0,0` from the empty queue. -/
theorem C6_degenerate_geometry_enqueues_nan :
    ((parseROI_ s0 ("deg,0,0,0,0,0,0")).queue.map ROI.quat) =
      [SolverResult.nan] := by
  have h1 : (parseROI_ s0 ("deg,0,0,0,0,0,0")).queue =
      [mkROI s0 ("deg,0,0,0,0,0,0")] := by rfl
  have h2 : (mkROI s0 ("deg,0,0,0,0,0,0")).quat = SolverResult.nan :=
    rotateVectorInPlan_nan_of_eq _ _ _ _
  rw [h1, List.map_cons, List.map_nil, h2]

/-- C8: after `clearROI` the queue is empty, and `getROI` on any state with
an empty queue returns the all-default sentinel record and leaves the state
unchanged (sentinel contents modelled from the spec, see `ROIdefault`). -/
theorem C8_clear_empty_sentinel (s t : SubtaskState) (h : t.dequeROI = []) :
    empty (clearROI s) = true ∧ getROI t = (ROIdefault, t) := by
  constructor
  · rfl
  · simp [getROI, h]

/-- Witness for C8 at the concrete state `s0`. -/
theorem C8_witness : empty (clearROI s0) = true ∧ getROI s0 = (ROIdefault, s0) :=
  C8_clear_empty_sentinel s0 s0 (by rfl)

/-- C9 counterexample: the claim says a stored record never carries an empty
id. Ingesting the descriptor `,1,2,3,4,5,6` — empty identifier field, six
numeric fields — into the empty queue stores exactly one record whose id is
the empty string. -/
theorem C9_counterexample_empty_id_stored :
    ((parseROI_ s0 (",1,2,3,4,5,6")).queue.map ROI.id) = [""] := by rfl

/-- C9 as amended: ingestion does not validate the identifier; a stored
record's id is exactly the descriptor's first comma-separated field, which
may be the empty string, and a fresh-id descriptor with parseable numeric
fields is stored like any other. -/
theorem C9_amended_id_is_first_field (s : SubtaskState) (str : String)
    (hv : validDescriptor str)
    (hf : isIdStored_ s (descriptorId str) = false) :
    parseROI_ s str =
      IngestOutcome.ok { s with dequeROI := s.dequeROI ++ [mkROI s str] } ∧
    (mkROI s str).id = descriptorId str :=
  ⟨parseROI_append hv hf, mkROI_id s str⟩

/-- Witness for the amended C9 at the empty-identifier descriptor. -/
theorem C9_witness :
    (parseROI_ s0 (",1,2,3,4,5,6") =
      IngestOutcome.ok
        { s0 with dequeROI := s0.dequeROI ++ [mkROI s0 (",1,2,3,4,5,6")] } ∧
      (mkROI s0 (",1,2,3,4,5,6")).id = descriptorId (",1,2,3,4,5,6")) ∧
    descriptorId (",1,2,3,4,5,6") = ("") :=
  ⟨C9_amended_id_is_first_field s0 (",1,2,3,4,5,6") (by decide) (by decide),
    by decide⟩

/-- C10: deduplication consults only the pending deque — after ingesting a
valid descriptor into the empty queue and consuming it, a second valid
descriptor with the same id is accepted again and a second record carrying
that id is appended. -/
theorem C10_dedup_forgets_consumed (s : SubtaskState) (d₁ d₂ : String)
    (hv₁ : validDescriptor d₁) (hv₂ : validDescriptor d₂)
    (hid : descriptorId d₂ = descriptorId d₁) (h0 : s.dequeROI = []) :
    ∃ s₁, parseROI_ s d₁ = IngestOutcome.ok s₁ ∧
      (getROI s₁).1 = mkROI s d₁ ∧
      (getROI s₁).2.dequeROI = [] ∧
      parseROI_ (getROI s₁).2 d₂ =
        IngestOutcome.ok
          { (getROI s₁).2 with dequeROI := [mkROI (getROI s₁).2 d₂] } ∧
      (mkROI (getROI s₁).2 d₂).id = descriptorId d₁ := by
  have hf : isIdStored_ s (descriptorId d₁) = false := by simp [isIdStored_, h0]
  refine ⟨_, parseROI_append hv₁ hf, ?_, ?_, ?_, ?_⟩
  · simp [getROI, h0]
  · simp [getROI, h0]
  · have hf₂ : isIdStored_
        (getROI { s with dequeROI := s.dequeROI ++ [mkROI s d₁] }).2
        (descriptorId d₂) = false := by
      simp [getROI, h0, isIdStored_]
    have h := parseROI_append hv₂ hf₂
    rw [h]
    congr 1
    simp [getROI, h0]
  · rw [mkROI_id, hid]

/-- Witness for C10 at two concrete descriptors sharing the id `x`. -/
theorem C10_witness :
    ∃ s₁, parseROI_ s0 ("x,1,2,3,4,5,6") = IngestOutcome.ok s₁ ∧
      (getROI s₁).1 = mkROI s0 ("x,1,2,3,4,5,6") ∧
      (getROI s₁).2.dequeROI = [] ∧
      parseROI_ (getROI s₁).2 ("x,6,5,4,3,2,1") =
        IngestOutcome.ok
          { (getROI s₁).2 with
              dequeROI := [mkROI (getROI s₁).2 ("x,6,5,4,3,2,1")] } ∧
      (mkROI (getROI s₁).2 ("x,6,5,4,3,2,1")).id =
        descriptorId ("x,1,2,3,4,5,6") :=
  C10_dedup_forgets_consumed s0 ("x,1,2,3,4,5,6") ("x,6,5,4,3,2,1")
    (by decide) (by decide) (by decide) (by rfl)

/-- Witness for C1 at concrete coincident start/end points (zero-length edge
vector), third point, reference vector and theta. -/
theorem C1_witness :
    rotateVectorInPlan_ ⟨0, 0, 0⟩ ⟨0, 0, 0⟩ ⟨0, 1, 0⟩ ⟨0, 0, 1⟩ 0 =
      SolverResult.nan :=
  C1_no_explicit_failure_on_degenerate_inputs.1 ⟨0, 0, 0⟩ ⟨0, 1, 0⟩ ⟨0, 0, 1⟩ 0

end Subtask
